import Mathlib

/-!
Verification of the `IOSSurfaceMetalImpeller` rendering-surface adapter
(`src/engine/src/flutter/shell/platform/darwin/ios/ios_surface_metal_impeller.h`).

The repository fragment contains only the class declaration, so the field
layout, the constructor signature, the `const` qualifiers on the delegate
methods and the default `is_valid_ = false` come from the header, while the
behaviour of each member function is modelled from the specification
(sections 3, 4.1, 6 and 7 of the design document).  Machine state is passed
explicitly: every member function takes the adapter state and returns a pair
of its result and the (possibly updated) state; methods declared `const` in
the header return the state unchanged.
-/

namespace FlutterModel

/-- Opaque reference to a compositor-managed `CAMetalLayer`. -/
structure CAMetalLayerRef where
  id : Nat
deriving DecidableEq

/-- Shared graphics context (`IOSContext`) handed to the adapter at
construction.  Modelled from the spec: the context carries a flag recording
whether it is compatible with the native layer backend (spec section 6:
the adapter is valid only if layer and context are well-formed and
compatible). -/
structure IOSContext where
  compatible : Bool
deriving DecidableEq

/-- Engine graphics context (`GrDirectContext`) passed to `CreateGPUSurface`.
Modelled from the spec: it carries a flag recording whether the
context/layer combination is usable (spec section 4.1). -/
structure GrDirectContext where
  usable : Bool
deriving DecidableEq

/-- Frame size hint (`SkISize`): integer width and height. -/
structure SkISize where
  width : Int
  height : Int
deriving DecidableEq

/-- Current observed geometry of the native layer: logical size and scale.
Modelled from the spec (section 3, FrameExtent): the layer geometry is
driven externally by the compositor and only observed by the adapter, so
each call that inspects it receives the current values as an argument.
The spec's examples use integral scales, so scale is modelled as an
integer. -/
structure LayerGeometry where
  logicalWidth : Int
  logicalHeight : Int
  scale : Int
deriving DecidableEq

/-- Physical backing-store extent implied by a layer geometry:
logical size times scale. -/
def LayerGeometry.physical (o : LayerGeometry) : Int × Int :=
  (o.logicalWidth * o.scale, o.logicalHeight * o.scale)

/-- Opaque Metal drawable handle (`GrMTLHandle`). -/
abbrev GrMTLHandle := Nat

/-- Texture-plus-metadata record (`GPUMTLTextureInfo`) returned by the
texture acquisition path; `texture = none` models a degenerate (empty)
handle. -/
structure GPUMTLTextureInfo where
  texture : Option Nat
  width : Int
  height : Int
deriving DecidableEq

/-- Engine-facing presentable surface returned by `CreateGPUSurface`. -/
structure Surface where
  boundLayer : Option CAMetalLayerRef
deriving DecidableEq

/-- State of an `IOSSurfaceMetalImpeller` adapter.  The fields `layer_` and
`is_valid_` are the data members of the header (lines 27–28); `is_valid_`
defaults to `false` exactly as in the header.  `storage_` is modelled from
the spec (section 3, FrameExtent invariant): the physical size the backing
store was last synchronized to, `none` before any synchronization. -/
structure IOSSurfaceMetalImpeller where
  layer_ : Option CAMetalLayerRef
  is_valid_ : Bool := false
  storage_ : Option (Int × Int) := none
deriving DecidableEq

/-- Whether a construction-time context argument is well-formed and
compatible: a null context is never acceptable, a non-null one is
acceptable iff compatible.  Modelled from the spec (section 6). -/
def contextOk : Option IOSContext → Bool
  | none => false
  | some c => c.compatible

/-- Modelled from the spec: the constructor
`IOSSurfaceMetalImpeller(layer, context)` takes exactly a native layer
reference and a shared graphics-context reference (header lines 20–21,
spec section 6); the adapter becomes valid iff the layer is non-null and
the context is non-null and compatible, and no storage is configured yet.
-/
def mkIOSSurfaceMetalImpeller (layer : Option CAMetalLayerRef)
    (context : Option IOSContext) : IOSSurfaceMetalImpeller :=
  { layer_ := layer
    is_valid_ := layer.isSome && contextOk context
    storage_ := none }

/-- `IsValid` returns the validity flag (header line 31, `const`):
no side effects. -/
def IOSSurfaceMetalImpeller.IsValid (a : IOSSurfaceMetalImpeller) : Bool :=
  a.is_valid_

/-- Modelled from the spec: the external event of the native layer being
detached or destroyed (spec section 4.1 state machine) sets the validity
flag to false permanently; the stored layer reference itself is retained
for the adapter's lifetime (spec section 3). -/
def IOSSurfaceMetalImpeller.detachLayer (a : IOSSurfaceMetalImpeller) :
    IOSSurfaceMetalImpeller :=
  { a with is_valid_ := false }

/-- Modelled from the spec: `UpdateStorageSizeIfNecessary` (header line 34)
inspects the layer's current logical size and scale; a zero or negative
physical extent skips the update (spec section 7, resize failure); an
unchanged physical size performs no work (spec section 4.1, idempotent);
otherwise the backing store is reconfigured to the new physical size.
The source returns `void`; the Boolean component records whether a
reallocation was performed, so that "performs no work" is observable. -/
def IOSSurfaceMetalImpeller.UpdateStorageSizeIfNecessary
    (a : IOSSurfaceMetalImpeller) (o : LayerGeometry) :
    Bool × IOSSurfaceMetalImpeller :=
  if o.physical.1 ≤ 0 ∨ o.physical.2 ≤ 0 then (false, a)
  else if a.storage_ = some o.physical then (false, a)
  else (true, { a with storage_ := some o.physical })

/-- Modelled from the spec: `CreateGPUSurface` (header line 37) constructs
the engine-facing surface bound to this adapter, or fails (`none`) when the
adapter is invalid or the supplied engine context is null or unusable
(spec section 4.1). -/
def IOSSurfaceMetalImpeller.CreateGPUSurface (a : IOSSurfaceMetalImpeller)
    (g : Option GrDirectContext) :
    Option Surface × IOSSurfaceMetalImpeller :=
  (if a.is_valid_ && (match g with | none => false | some gc => gc.usable)
    then some ⟨a.layer_⟩ else none, a)

/-- Modelled from the spec: `GetCAMetalLayer` (header line 40) returns the
stored native layer reference for the backend to wrap, and an empty result
once the adapter is invalid (spec section 7, post-invalidation use).  It is
`const` in the header, so the state is returned unchanged, and the
frame-size hint is advisory and unused (spec section 4.1). -/
def IOSSurfaceMetalImpeller.GetCAMetalLayer (a : IOSSurfaceMetalImpeller)
    (_frame_info : SkISize) :
    Option CAMetalLayerRef × IOSSurfaceMetalImpeller :=
  (if a.is_valid_ then a.layer_ else none, a)

/-- Modelled from the spec: `PresentDrawable` (header line 43) submits a
previously acquired drawable; it succeeds iff the adapter is still valid
(layer attached) and reports failure, rather than crashing, when the layer
was detached mid-frame (spec sections 4.1 and 7).  It is `const` in the
header, so the state is returned unchanged. -/
def IOSSurfaceMetalImpeller.PresentDrawable (a : IOSSurfaceMetalImpeller)
    (_drawable : GrMTLHandle) : Bool × IOSSurfaceMetalImpeller :=
  (a.is_valid_, a)

/-- Modelled from the spec: `GetMTLTexture` (header line 46) returns a
texture reference plus metadata matching the current backing-store
configuration, and a degenerate (empty) record when the adapter is invalid
or no backing store has been configured (spec sections 4.1 and 7).  It is
`const` in the header, so the state is returned unchanged. -/
def IOSSurfaceMetalImpeller.GetMTLTexture (a : IOSSurfaceMetalImpeller)
    (_frame_info : SkISize) :
    GPUMTLTextureInfo × IOSSurfaceMetalImpeller :=
  (match a.storage_ with
    | some p => if a.is_valid_ then ⟨some 0, p.1, p.2⟩ else ⟨none, 0, 0⟩
    | none => ⟨none, 0, 0⟩, a)

/-- Modelled from the spec: `PresentTexture` (header line 49) presents a
texture acquired via the texture path, with the same pre- and
postconditions as `PresentDrawable` (spec section 4.1): success iff the
adapter is still valid.  It is `const` in the header, so the state is
returned unchanged. -/
def IOSSurfaceMetalImpeller.PresentTexture (a : IOSSurfaceMetalImpeller)
    (_texture : GPUMTLTextureInfo) : Bool × IOSSurfaceMetalImpeller :=
  (a.is_valid_, a)

/-- Modelled from the spec: `AllowsDrawingWhenGpuDisabled` (header line 52)
is a pure policy query whose answer is a fixed constant for this surface
kind; this GPU-backed adapter does not permit drawing while the GPU is
administratively disabled, unlike software fallback adapters (spec
section 4.1).  It is `const` in the header, so the state is returned
unchanged. -/
def IOSSurfaceMetalImpeller.AllowsDrawingWhenGpuDisabled
    (a : IOSSurfaceMetalImpeller) : Bool × IOSSurfaceMetalImpeller :=
  (false, a)

/-- One observable event on an adapter: a call to any member function, or
the external layer-detach event.  Each constructor relates a state to the
state after that event. -/
inductive Step : IOSSurfaceMetalImpeller → IOSSurfaceMetalImpeller → Prop
  | update (a : IOSSurfaceMetalImpeller) (o : LayerGeometry) :
      Step a (a.UpdateStorageSizeIfNecessary o).2
  | create (a : IOSSurfaceMetalImpeller) (g : Option GrDirectContext) :
      Step a (a.CreateGPUSurface g).2
  | getLayer (a : IOSSurfaceMetalImpeller) (s : SkISize) :
      Step a (a.GetCAMetalLayer s).2
  | presentDrawable (a : IOSSurfaceMetalImpeller) (d : GrMTLHandle) :
      Step a (a.PresentDrawable d).2
  | getTexture (a : IOSSurfaceMetalImpeller) (s : SkISize) :
      Step a (a.GetMTLTexture s).2
  | presentTexture (a : IOSSurfaceMetalImpeller) (t : GPUMTLTextureInfo) :
      Step a (a.PresentTexture t).2
  | allows (a : IOSSurfaceMetalImpeller) :
      Step a a.AllowsDrawingWhenGpuDisabled.2
  | detach (a : IOSSurfaceMetalImpeller) :
      Step a a.detachLayer

/-- Reachability: zero or more events. -/
def Reaches : IOSSurfaceMetalImpeller → IOSSurfaceMetalImpeller → Prop :=
  Relation.ReflTransGen Step

/-- Helper: a storage update never touches the validity flag. -/
theorem update_preserves_is_valid (a : IOSSurfaceMetalImpeller)
    (o : LayerGeometry) :
    (a.UpdateStorageSizeIfNecessary o).2.is_valid_ = a.is_valid_ := by
  unfold IOSSurfaceMetalImpeller.UpdateStorageSizeIfNecessary
  split_ifs <;> rfl

/-- Helper: a storage update never touches the layer reference. -/
theorem update_preserves_layer (a : IOSSurfaceMetalImpeller)
    (o : LayerGeometry) :
    (a.UpdateStorageSizeIfNecessary o).2.layer_ = a.layer_ := by
  unfold IOSSurfaceMetalImpeller.UpdateStorageSizeIfNecessary
  split_ifs <;> rfl

/-- Helper: every event either leaves the validity flag unchanged or is the
layer-detach event. -/
theorem step_valid_or_detach (a a' : IOSSurfaceMetalImpeller)
    (h : Step a a') : a'.is_valid_ = a.is_valid_ ∨ a' = a.detachLayer := by
  cases h with
  | update o => exact Or.inl (update_preserves_is_valid a o)
  | create g => exact Or.inl rfl
  | getLayer s => exact Or.inl rfl
  | presentDrawable d => exact Or.inl rfl
  | getTexture s => exact Or.inl rfl
  | presentTexture t => exact Or.inl rfl
  | allows => exact Or.inl rfl
  | detach => exact Or.inr rfl

/-- Helper: an invalid adapter stays invalid across any single event. -/
theorem step_preserves_invalid (a a' : IOSSurfaceMetalImpeller)
    (h : Step a a') (hv : a.is_valid_ = false) : a'.is_valid_ = false := by
  rcases step_valid_or_detach a a' h with heq | hdet
  · rw [heq]; exact hv
  · rw [hdet]; rfl

/-- Helper: an invalid adapter stays invalid along any event sequence. -/
theorem reaches_preserves_invalid (a a' : IOSSurfaceMetalImpeller)
    (h : Reaches a a') (hv : a.is_valid_ = false) :
    a'.is_valid_ = false := by
  induction h with
  | refl => exact hv
  | tail _ hstep ih => exact step_preserves_invalid _ _ hstep ih

/-- C1: an adapter constructed with a null layer, a null context, or an
incompatible context is invalid at construction, and `IsValid` returns
false at every reachable observation point for the lifetime of the
instance — it never silently becomes valid later. -/
theorem c1_construction_failure_invalid_forever
    (layer : Option CAMetalLayerRef) (context : Option IOSContext)
    (h : layer = none ∨ context = none ∨
      ∃ c, context = some c ∧ c.compatible = false)
    (a' : IOSSurfaceMetalImpeller)
    (hr : Reaches (mkIOSSurfaceMetalImpeller layer context) a') :
    a'.IsValid = false := by
  have h0 : (mkIOSSurfaceMetalImpeller layer context).is_valid_ = false := by
    rcases h with h | h | ⟨c, hc, hcc⟩
    · subst h; rfl
    · subst h
      simp [mkIOSSurfaceMetalImpeller, contextOk]
    · subst hc
      simp [mkIOSSurfaceMetalImpeller, contextOk, hcc]
  exact reaches_preserves_invalid _ _ hr h0

/-- Witness for C1 at the concrete input of a null layer and null context:
the adapter is already invalid at the construction state itself. -/
theorem c1_witness :
    (mkIOSSurfaceMetalImpeller none none).IsValid = false :=
  c1_construction_failure_invalid_forever none none (Or.inl rfl) _
    Relation.ReflTransGen.refl

/-- C2: an adapter successfully constructed with a non-null layer and a
compatible context starts valid; every event either leaves `IsValid`
unchanged or is the layer-detach event; detaching makes `IsValid` false;
and once false it stays false along every reachable event sequence, so
`IsValid` never transitions from false back to true. -/
theorem c2_valid_until_detach_then_terminal
    (l : CAMetalLayerRef) (c : IOSContext) (hc : c.compatible = true) :
    (mkIOSSurfaceMetalImpeller (some l) (some c)).IsValid = true ∧
    (∀ a a' : IOSSurfaceMetalImpeller, Step a a' →
      a'.IsValid = a.IsValid ∨ a' = a.detachLayer) ∧
    (∀ a : IOSSurfaceMetalImpeller, a.detachLayer.IsValid = false) ∧
    (∀ a a' : IOSSurfaceMetalImpeller, Reaches a a' →
      a.IsValid = false → a'.IsValid = false) := by
  refine ⟨?_, ?_, ?_, ?_⟩
  · simp [mkIOSSurfaceMetalImpeller, contextOk, hc,
      IOSSurfaceMetalImpeller.IsValid]
  · exact fun a a' h => step_valid_or_detach a a' h
  · exact fun a => rfl
  · exact fun a a' h hv => reaches_preserves_invalid a a' h hv

/-- Witness for C2 at a concrete layer and compatible context: the fresh
adapter is valid and the detached adapter is invalid. -/
theorem c2_witness :
    (mkIOSSurfaceMetalImpeller (some ⟨0⟩) (some ⟨true⟩)).IsValid = true ∧
    (mkIOSSurfaceMetalImpeller
      (some ⟨0⟩) (some ⟨true⟩)).detachLayer.IsValid = false :=
  ⟨(c2_valid_until_detach_then_terminal ⟨0⟩ ⟨true⟩ rfl).1,
   (c2_valid_until_detach_then_terminal ⟨0⟩ ⟨true⟩ rfl).2.2.1 _⟩

/-- C3: `UpdateStorageSizeIfNecessary` is idempotent — calling it a second
time with the same observed layer geometry performs no reallocation and
leaves the adapter state exactly as after the first call, so across the
two calls the reallocation happens at most once. -/
theorem c3_update_storage_idempotent
    (a : IOSSurfaceMetalImpeller) (o : LayerGeometry) :
    (a.UpdateStorageSizeIfNecessary o).2.UpdateStorageSizeIfNecessary o
      = (false, (a.UpdateStorageSizeIfNecessary o).2) := by
  by_cases h1 : o.physical.1 ≤ 0 ∨ o.physical.2 ≤ 0
  · simp [IOSSurfaceMetalImpeller.UpdateStorageSizeIfNecessary, h1]
  · by_cases h2 : a.storage_ = some o.physical
    · simp [IOSSurfaceMetalImpeller.UpdateStorageSizeIfNecessary, h1, h2]
    · simp [IOSSurfaceMetalImpeller.UpdateStorageSizeIfNecessary, h1, h2]

/-- C4: on a valid (attached) adapter, presenting an acquired drawable or
texture succeeds and leaves the adapter unchanged; after the layer is
detached between acquire and present, the matching present call reports
failure — a returned Boolean, not a crash — and still leaves the adapter
state unchanged. -/
theorem c4_present_success_iff_attached
    (a : IOSSurfaceMetalImpeller) (hv : a.IsValid = true)
    (d : GrMTLHandle) (t : GPUMTLTextureInfo) :
    (a.PresentDrawable d).1 = true ∧
    (a.PresentDrawable d).2 = a ∧
    (a.PresentTexture t).1 = true ∧
    (a.PresentTexture t).2 = a ∧
    (a.detachLayer.PresentDrawable d).1 = false ∧
    (a.detachLayer.PresentDrawable d).2 = a.detachLayer ∧
    (a.detachLayer.PresentTexture t).1 = false ∧
    (a.detachLayer.PresentTexture t).2 = a.detachLayer := by
  refine ⟨hv, rfl, hv, rfl, rfl, rfl, rfl, rfl⟩

/-- Witness for C4 at a concrete valid adapter, drawable and texture
record. -/
theorem c4_witness :
    ((mkIOSSurfaceMetalImpeller (some ⟨0⟩) (some ⟨true⟩)).PresentDrawable
      7).1 = true ∧
    ((mkIOSSurfaceMetalImpeller
        (some ⟨0⟩) (some ⟨true⟩)).detachLayer.PresentDrawable 7).1
      = false :=
  ⟨(c4_present_success_iff_attached
      (mkIOSSurfaceMetalImpeller (some ⟨0⟩) (some ⟨true⟩)) rfl 7
      ⟨some 0, 1, 1⟩).1,
   (c4_present_success_iff_attached
      (mkIOSSurfaceMetalImpeller (some ⟨0⟩) (some ⟨true⟩)) rfl 7
      ⟨some 0, 1, 1⟩).2.2.2.2.1⟩

/-- C5: after the layer is detached, every operation fails
deterministically with a failure or empty result: `IsValid` is false,
`PresentDrawable` with a previously acquired handle returns false and
leaves `IsValid` false afterwards, `GetCAMetalLayer` returns no handle,
`GetMTLTexture` returns a degenerate record, `PresentTexture` returns
false, and `CreateGPUSurface` returns no surface. -/
theorem c5_post_invalidation_deterministic_failure
    (a : IOSSurfaceMetalImpeller) (d : GrMTLHandle)
    (t : GPUMTLTextureInfo) (s : SkISize) (g : Option GrDirectContext) :
    a.detachLayer.IsValid = false ∧
    (a.detachLayer.PresentDrawable d).1 = false ∧
    (a.detachLayer.PresentDrawable d).2.IsValid = false ∧
    (a.detachLayer.GetCAMetalLayer s).1 = none ∧
    (a.detachLayer.GetMTLTexture s).1.texture = none ∧
    (a.detachLayer.PresentTexture t).1 = false ∧
    (a.detachLayer.CreateGPUSurface g).1 = none := by
  refine ⟨rfl, rfl, rfl, rfl, ?_, rfl, rfl⟩
  unfold IOSSurfaceMetalImpeller.GetMTLTexture
  cases h : a.detachLayer.storage_ with
  | none => rfl
  | some p => simp [h, IOSSurfaceMetalImpeller.detachLayer]

/-- C6: `AllowsDrawingWhenGpuDisabled` is pure and side-effect-free: it
always returns the fixed constant false for this surface kind, leaves the
adapter state unchanged, and a repeated call with no intervening state
change returns the same value. -/
theorem c6_allows_drawing_pure_constant (a : IOSSurfaceMetalImpeller) :
    a.AllowsDrawingWhenGpuDisabled.1 = false ∧
    a.AllowsDrawingWhenGpuDisabled.2 = a ∧
    a.AllowsDrawingWhenGpuDisabled.2.AllowsDrawingWhenGpuDisabled.1
      = a.AllowsDrawingWhenGpuDisabled.1 :=
  ⟨rfl, rfl, rfl⟩

/-- C7: `GetCAMetalLayer` is read-only: it leaves the whole adapter state —
in particular the stored layer reference and the validity flag — unchanged,
and its result does not depend on the advisory frame-size hint. -/
theorem c7_get_layer_read_only
    (a : IOSSurfaceMetalImpeller) (s1 s2 : SkISize) :
    (a.GetCAMetalLayer s1).2 = a ∧
    (a.GetCAMetalLayer s1).2.layer_ = a.layer_ ∧
    (a.GetCAMetalLayer s1).2.is_valid_ = a.is_valid_ ∧
    (a.GetCAMetalLayer s1).1 = (a.GetCAMetalLayer s2).1 :=
  ⟨rfl, rfl, rfl, rfl⟩

/-- C8: when `UpdateStorageSizeIfNecessary` observes a zero or negative
physical extent, the storage update is skipped entirely — no reallocation
is performed and the adapter state, in particular `IsValid`, is exactly as
before. -/
theorem c8_degenerate_resize_skipped
    (a : IOSSurfaceMetalImpeller) (o : LayerGeometry)
    (h : o.physical.1 ≤ 0 ∨ o.physical.2 ≤ 0) :
    a.UpdateStorageSizeIfNecessary o = (false, a) ∧
    (a.UpdateStorageSizeIfNecessary o).2.IsValid = a.IsValid := by
  constructor
  · simp [IOSSurfaceMetalImpeller.UpdateStorageSizeIfNecessary, h]
  · exact update_preserves_is_valid a o

/-- Witness for C8 at a concrete valid adapter observing a zero-width
layer. -/
theorem c8_witness :
    (mkIOSSurfaceMetalImpeller
        (some ⟨0⟩) (some ⟨true⟩)).UpdateStorageSizeIfNecessary ⟨0, 100, 2⟩
      = (false, mkIOSSurfaceMetalImpeller (some ⟨0⟩) (some ⟨true⟩)) :=
  (c8_degenerate_resize_skipped _ ⟨0, 100, 2⟩ (Or.inl (by decide))).1

/-- C9: one adapter value, built from exactly two inputs (a native layer
reference and a shared context reference), serves both structural
contracts over the same internal state: the owner-facing operations
(`IsValid`, `UpdateStorageSizeIfNecessary`, `CreateGPUSurface`) and the
backend-facing operations (`GetCAMetalLayer`, `PresentDrawable`,
`GetMTLTexture`, `PresentTexture`, `AllowsDrawingWhenGpuDisabled`) all
read the shared `layer_` and `is_valid_` fields stored at construction. -/
theorem c9_one_object_two_contracts
    (layer : Option CAMetalLayerRef) (context : Option IOSContext)
    (a : IOSSurfaceMetalImpeller)
    (ha : a = mkIOSSurfaceMetalImpeller layer context)
    (s : SkISize) (o : LayerGeometry) (d : GrMTLHandle)
    (t : GPUMTLTextureInfo) (g : Option GrDirectContext) :
    a.layer_ = layer ∧
    a.IsValid = a.is_valid_ ∧
    (a.UpdateStorageSizeIfNecessary o).2.layer_ = a.layer_ ∧
    (a.UpdateStorageSizeIfNecessary o).2.is_valid_ = a.is_valid_ ∧
    (a.CreateGPUSurface g).2 = a ∧
    (a.GetCAMetalLayer s).1
      = (if a.is_valid_ then a.layer_ else none) ∧
    (a.PresentDrawable d).1 = a.IsValid ∧
    (a.GetMTLTexture s).2 = a ∧
    (a.PresentTexture t).1 = a.IsValid ∧
    a.AllowsDrawingWhenGpuDisabled.2 = a := by
  subst ha
  exact ⟨rfl, rfl, update_preserves_layer _ o,
    update_preserves_is_valid _ o, rfl, rfl, rfl, rfl, rfl, rfl⟩

/-- Witness for C9 at a concrete layer, context and arguments. -/
theorem c9_witness :
    (mkIOSSurfaceMetalImpeller (some ⟨1⟩) (some ⟨true⟩)).layer_
      = some ⟨1⟩ ∧
    ((mkIOSSurfaceMetalImpeller (some ⟨1⟩) (some ⟨true⟩)).PresentDrawable
        3).1
      = (mkIOSSurfaceMetalImpeller (some ⟨1⟩) (some ⟨true⟩)).IsValid :=
  ⟨(c9_one_object_two_contracts (some ⟨1⟩) (some ⟨true⟩) _ rfl ⟨1, 1⟩
      ⟨1, 1, 1⟩ 3 ⟨none, 0, 0⟩ none).1,
   (c9_one_object_two_contracts (some ⟨1⟩) (some ⟨true⟩) _ rfl ⟨1, 1⟩
      ⟨1, 1, 1⟩ 3 ⟨none, 0, 0⟩ none).2.2.2.2.2.2.1⟩
